import Mathlib

/-!
Verification of the boto3-examples repository against its specification.

The repository is a set of tutorial scripts around a cloud storage (S3) API:
`examples/s3_bucket_lifecycle.py` (an `S3Manager` facade plus a full-lifecycle
demo `main`), `examples/simple_s3_operations.py`, `examples/test_connection.py`,
and `run_all_examples.py` (a runner invoking the three scripts as
subprocesses).

The shallow embedding below models:
  * the session/credential resolution of `get_boto3_session` (identical in all
    three example scripts);
  * a mocked storage backend (`S3State`) with the raw SDK calls the scripts
    make (`createBucketAPI`, `putObjectAPI`, `getObjectAPI`, `deleteObjectAPI`,
    `deleteBucketAPI`, `headBucketAPI`, `listObjectsAPI`), over which the
    `S3Manager` facade methods are translated;
  * the try/except shape of each facade method as a function from the raw
    call's outcome (success or a raised exception) to either a returned
    sentinel value or a propagated exception;
  * the exit-code control flow of the three scripts' `main` functions and the
    runner's loop over the example scripts.
-/

set_option autoImplicit false

namespace Boto3

/-! ## Session / credential resolution

`get_boto3_session(profile_name=None)` (s3_bucket_lifecycle.py lines 29-50,
identical in simple_s3_operations.py and test_connection.py): if the argument
is truthy use it as profile; else if `os.environ.get('AWS_PROFILE')` is truthy
use that; else a default session.  Constructing a session for a profile that
does not exist in the local configuration raises `ProfileNotFound`, which the
function catches, returning `None`. -/

/-- Python truthiness of `profile_name` / `os.environ.get('AWS_PROFILE')`:
`None` and the empty string are falsy, any other string is truthy. -/
def truthy : Option String → Bool
  | none => false
  | some s => !s.isEmpty

/-- The credential context a resolved boto3 session uses. -/
inductive SessionKind where
  | profile (name : String)
  | default
  deriving DecidableEq, Repr

/-- Modelled boto3 `Session` construction: with `profile_name=n` it raises
`ProfileNotFound` (here: `none`) when `n` is not among the locally configured
profiles; with no profile it uses ambient default credentials. -/
def mkSession (profiles : List String) (k : SessionKind) : Option SessionKind :=
  match k with
  | .profile n => if n ∈ profiles then some (.profile n) else none
  | .default => some .default

/-- Translation of `get_boto3_session`: `profiles` is the local AWS
configuration, `env` the value of `AWS_PROFILE` (`none` when unset),
`profile_name` the function argument.  Returns `none` when `ProfileNotFound`
was caught (the Python function returns `None`). -/
def get_boto3_session (profiles : List String) (env : Option String)
    (profile_name : Option String) : Option SessionKind :=
  if truthy profile_name then
    mkSession profiles (.profile (profile_name.getD ""))
  else if truthy env then
    mkSession profiles (.profile (env.getD ""))
  else
    mkSession profiles .default

/-- Startup prefix of `main` in s3_bucket_lifecycle.py (lines 289-294): resolve
the session; when it is `None`, `sys.exit(1)` fires before the `S3Manager` is
built, so no storage API call is ever attempted.  `exitCode = none` means the
script continued past this point (and only then builds the S3 client and makes
API calls). -/
structure StartupResult where
  exitCode : Option Nat
  apiAttempted : Bool
  deriving DecidableEq, Repr

/-- Lifecycle script startup: `session = get_boto3_session(args.profile)`
followed by `if not session: sys.exit(1)`. -/
def lifecycleStartup (profiles : List String) (env : Option String)
    (cli : Option String) : StartupResult :=
  match get_boto3_session profiles env cli with
  | none => { exitCode := some 1, apiAttempted := false }
  | some _ => { exitCode := none, apiAttempted := true }

end Boto3

namespace Boto3

/-! ## Mocked storage backend

State of the mocked S3 service: the buckets owned by the caller's account
(each a name plus a list of objects) and the set of bucket names already taken
globally by other accounts.  File contents are opaque byte lists; the local
filesystem is an association list from paths to contents. -/

/-- Contents of a file, as bytes. -/
abbrev Bytes := List Nat

/-- A stored S3 object: key plus contents. -/
structure MockObject where
  key : String
  content : Bytes
  deriving DecidableEq, Repr

/-- A bucket owned by the caller's account. -/
structure MockBucket where
  name : String
  objs : List MockObject
  deriving DecidableEq, Repr

/-- State of the mocked storage service. -/
structure S3State where
  mine : List MockBucket
  others : List String
  deriving DecidableEq, Repr

/-- Error codes carried by a botocore `ClientError` (`e.response['Error']['Code']`). -/
inductive ErrCode where
  | bucketAlreadyExists
  | bucketAlreadyOwnedByYou
  | noSuchBucket
  | bucketNotEmpty
  | noSuchKey
  | accessDenied
  | other (code : String)
  deriving DecidableEq, Repr

/-- Local filesystem: association list from path to contents. -/
abbrev LocalFS := List (String × Bytes)

/-- Look a path up in the local filesystem. -/
def fsLookup (fs : LocalFS) (p : String) : Option Bytes :=
  match fs with
  | [] => none
  | (q, c) :: rest => if q = p then some c else fsLookup rest p

/-- Write a file (overwriting any previous entry for the path). -/
def fsWrite (fs : LocalFS) (p : String) (c : Bytes) : LocalFS :=
  (p, c) :: fs

/-- Find a bucket of the caller's account by name. -/
def findBucket (bs : List MockBucket) (name : String) : Option MockBucket :=
  match bs with
  | [] => none
  | b :: rest => if b.name = name then some b else findBucket rest name

/-- Replace the object list of the named bucket. -/
def setBucketObjs (bs : List MockBucket) (name : String) (objs : List MockObject) :
    List MockBucket :=
  match bs with
  | [] => []
  | b :: rest =>
      if b.name = name then { b with objs := objs } :: rest
      else b :: setBucketObjs rest name objs

/-- Remove the named bucket from the account. -/
def removeBucket (bs : List MockBucket) (name : String) : List MockBucket :=
  match bs with
  | [] => []
  | b :: rest =>
      if b.name = name then removeBucket rest name else b :: removeBucket rest name

/-- Look an object up by key. -/
def objLookup (objs : List MockObject) (key : String) : Option Bytes :=
  match objs with
  | [] => none
  | o :: rest => if o.key = key then some o.content else objLookup rest key

/-- Store an object under a key, replacing any object already stored under it. -/
def objUpsert (objs : List MockObject) (key : String) (c : Bytes) : List MockObject :=
  match objs with
  | [] => [⟨key, c⟩]
  | o :: rest =>
      if o.key = key then ⟨key, c⟩ :: rest else o :: objUpsert rest key c

/-- Remove every object stored under a key. -/
def objErase (objs : List MockObject) (key : String) : List MockObject :=
  match objs with
  | [] => []
  | o :: rest => if o.key = key then objErase rest key else o :: objErase rest key

/-! ### Raw SDK calls over the mocked backend

Each call either succeeds with a result and successor state or raises a
`ClientError` with an error code. -/

/-- `s3_client.create_bucket(Bucket=name)`: fails with
`BucketAlreadyOwnedByYou` when the caller already owns the name, with
`BucketAlreadyExists` when another account holds it, and otherwise creates an
empty bucket.  (The `LocationConstraint` argument sent for regions other than
us-east-1 does not affect this outcome and is not modelled.) -/
def createBucketAPI (st : S3State) (name : String) : Except ErrCode S3State :=
  match findBucket st.mine name with
  | some _ => .error .bucketAlreadyOwnedByYou
  | none =>
      if name ∈ st.others then .error .bucketAlreadyExists
      else .ok { st with mine := ⟨name, []⟩ :: st.mine }

/-- `s3_client.head_bucket(Bucket=name)`: succeeds exactly when the caller can
access the bucket; raises a `ClientError` (404/403) otherwise. -/
def headBucketAPI (st : S3State) (name : String) : Except ErrCode Unit :=
  match findBucket st.mine name with
  | some _ => .ok ()
  | none => .error .noSuchBucket

/-- `s3_client.list_objects_v2(Bucket=name)`: the keys (with contents) of the
bucket, or `NoSuchBucket`. -/
def listObjectsAPI (st : S3State) (name : String) : Except ErrCode (List MockObject) :=
  match findBucket st.mine name with
  | some b => .ok b.objs
  | none => .error .noSuchBucket

/-- `s3_client.upload_file(path, bucket, key)`: store the bytes read from the
local path under the key.  The local read is handled before this call (a
missing local file raises `FileNotFoundError`, not a `ClientError`). -/
def putObjectAPI (st : S3State) (bucket key : String) (c : Bytes) :
    Except ErrCode S3State :=
  match findBucket st.mine bucket with
  | some b => .ok { st with mine := setBucketObjs st.mine bucket (objUpsert b.objs key c) }
  | none => .error .noSuchBucket

/-- `s3_client.download_file(bucket, key, dest)`: the stored bytes, or a
`ClientError` when bucket or key is missing. -/
def getObjectAPI (st : S3State) (bucket key : String) : Except ErrCode Bytes :=
  match findBucket st.mine bucket with
  | some b =>
      match objLookup b.objs key with
      | some c => .ok c
      | none => .error .noSuchKey
  | none => .error .noSuchBucket

/-- `s3_client.delete_object(Bucket=bucket, Key=key)`: removes the key (S3
reports success even when the key is absent); `NoSuchBucket` otherwise. -/
def deleteObjectAPI (st : S3State) (bucket key : String) : Except ErrCode S3State :=
  match findBucket st.mine bucket with
  | some b => .ok { st with mine := setBucketObjs st.mine bucket (objErase b.objs key) }
  | none => .error .noSuchBucket

/-- `s3_client.delete_bucket(Bucket=name)`: deletes an empty owned bucket;
`BucketNotEmpty` when objects remain, `NoSuchBucket` when absent. -/
def deleteBucketAPI (st : S3State) (name : String) : Except ErrCode S3State :=
  match findBucket st.mine name with
  | some b =>
      if b.objs = [] then .ok { st with mine := removeBucket st.mine name }
      else .error .bucketNotEmpty
  | none => .error .noSuchBucket

/-! ### The `S3Manager` facade (s3_bucket_lifecycle.py lines 53-242)

Each method translates the corresponding Python method's happy path and its
`except ClientError` handling over the mocked backend.  Methods return the
Python return value paired with the successor state. -/

/-- `S3Manager.create_bucket` (lines 70-104): create, then block on the
`bucket_exists` waiter; `BucketAlreadyExists` → `False`,
`BucketAlreadyOwnedByYou` → `True`, any other error → `False`.  In the
synchronous mock the waiter's condition holds as soon as the create call
returns, so waiting does not change the state. -/
def create_bucket (st : S3State) (name : String) : Bool × S3State :=
  match createBucketAPI st name with
  | .ok st' => (true, st')
  | .error .bucketAlreadyExists => (false, st)
  | .error .bucketAlreadyOwnedByYou => (true, st)
  | .error _ => (false, st)

/-- `S3Manager.list_buckets` (lines 106-125): names of all owned buckets
(`list_buckets` cannot fail in the mock short of a transport error, which the
outcome-level model below covers). -/
def list_buckets (st : S3State) : List String :=
  st.mine.map MockBucket.name

/-- `S3Manager.list_objects` (lines 158-179): the keys in the bucket, `[]` on
a `ClientError`. -/
def list_objects (st : S3State) (bucket : String) : List String :=
  match listObjectsAPI st bucket with
  | .ok objs => objs.map MockObject.key
  | .error _ => []

/-- `S3Manager.upload_file` (lines 127-156): the key defaults to
`os.path.basename` of the local path; a missing local file
(`FileNotFoundError`) and any `ClientError` both return `False`. -/
def upload_file (st : S3State) (fs : LocalFS) (bucket path : String)
    (s3_key : Option String) : Bool × S3State :=
  let key := s3_key.getD ((path.splitOn "/").getLastD path)
  match fsLookup fs path with
  | none => (false, st)
  | some c =>
      match putObjectAPI st bucket key c with
      | .ok st' => (true, st')
      | .error _ => (false, st)

/-- `S3Manager.download_file` (lines 181-193): writes the object's bytes to
the destination path; `False` (filesystem unchanged) on a `ClientError`. -/
def download_file (st : S3State) (fs : LocalFS) (bucket key dest : String) :
    Bool × LocalFS :=
  match getObjectAPI st bucket key with
  | .ok c => (true, fsWrite fs dest c)
  | .error _ => (false, fs)

/-- `S3Manager.delete_object` (lines 195-207): `True` on success, `False` on a
`ClientError`.  The extra `fail` flag injects a transient service error on
this one call (the raised `ClientError` is caught inside the method, which
then returns `False` and leaves the state unchanged). -/
def delete_object (fail : Bool) (st : S3State) (bucket key : String) :
    Bool × S3State :=
  if fail then (false, st)
  else
    match deleteObjectAPI st bucket key with
    | .ok st' => (true, st')
    | .error _ => (false, st)

/-- Per-object deletion phase of `S3Manager.delete_bucket` (lines 215-219):
`for obj_key in objects: self.delete_object(bucket_name, obj_key)` — each
returned boolean is discarded.  `failKeys` lists the keys whose deletion call
suffers an injected transient error.  Returns the successor state and the
keys passed to `delete_object`, in call order. -/
def deleteObjectsPhase (failKeys : List String) (st : S3State) (bucket : String) :
    List String → S3State
  | [] => st
  | k :: rest =>
      deleteObjectsPhase failKeys (delete_object (k ∈ failKeys) st bucket k).2 bucket rest

/-- `S3Manager.delete_bucket` (lines 209-234): list the objects, delete them
one by one (each per-object result discarded), then delete the bucket and
block on the `bucket_not_exists` waiter; `False` on a `ClientError` from the
bucket deletion itself. -/
def delete_bucket (failKeys : List String) (st : S3State) (bucket : String) :
    Bool × S3State :=
  let keys := list_objects st bucket
  let st' := deleteObjectsPhase failKeys st bucket keys
  match deleteBucketAPI st' bucket with
  | .ok st'' => (true, st'')
  | .error _ => (false, st')

/-- `S3Manager.bucket_exists` (lines 236-242): `head_bucket` succeeds →
`True`; any `ClientError` → `False`. -/
def bucket_exists (st : S3State) (name : String) : Bool :=
  match headBucketAPI st name with
  | .ok _ => true
  | .error _ => false

/-- Reported size of a local file (`os.path.getsize`). -/
def fileSize (fs : LocalFS) (p : String) : Option Nat :=
  (fsLookup fs p).map List.length

/-- Per-object results that would be collected during the deletion phase of
`delete_bucket`; the Python code discards each one on the spot. -/
def phaseObjs (failKeys : List String) (objs : List MockObject) :
    List String → List MockObject
  | [] => objs
  | k :: rest =>
      phaseObjs failKeys (if k ∈ failKeys then objs else objErase objs k) rest

/-! ## Exception shape of the facade methods

The stateful model above covers the happy paths and the `ClientError` cases
the mock can produce.  The definitions below capture, for each facade method,
exactly which exception classes its try/except catches: a method is a
function from the raw SDK call's outcome (success, or a raised exception of
some class) to either a returned sentinel or a propagated exception. -/

/-- Python exceptions relevant to the scripts: a botocore `ClientError`
carrying an error code; a `FileNotFoundError` from the local file handling in
`upload_file`; and any other exception class (`NoCredentialsError`,
`WaiterError`, `S3UploadFailedError`, ...) identified by its name — none of
these is a subclass of `ClientError` or `FileNotFoundError`. -/
inductive PyExc where
  | clientError (code : ErrCode)
  | fileNotFoundError
  | otherExc (name : String)
  deriving DecidableEq, Repr

/-- Outcome of the raw SDK call a facade method makes in its try block. -/
inductive Outcome (α : Type) where
  | ok (a : α)
  | raised (e : PyExc)

/-- try/except shape of `S3Manager.create_bucket` (lines 72-104):
`except ClientError` distinguishing `BucketAlreadyExists` (→ `False`) and
`BucketAlreadyOwnedByYou` (→ `True`), then a final `except Exception`
returning `False` — so no exception propagates from this method. -/
def create_bucketGuard (o : Outcome Unit) : Except PyExc Bool :=
  match o with
  | .ok _ => .ok true
  | .raised (.clientError .bucketAlreadyExists) => .ok false
  | .raised (.clientError .bucketAlreadyOwnedByYou) => .ok true
  | .raised (.clientError _) => .ok false
  | .raised _ => .ok false

/-- try/except shape of `S3Manager.list_buckets` (lines 108-125): only
`except ClientError` (→ `[]`); any other exception propagates. -/
def list_bucketsGuard (o : Outcome (List String)) : Except PyExc (List String) :=
  match o with
  | .ok names => .ok names
  | .raised (.clientError _) => .ok []
  | .raised e => .error e

/-- try/except shape of `S3Manager.upload_file` (lines 129-156):
`except FileNotFoundError` and `except ClientError` (both → `False`); any
other exception propagates. -/
def upload_fileGuard (o : Outcome Unit) : Except PyExc Bool :=
  match o with
  | .ok _ => .ok true
  | .raised .fileNotFoundError => .ok false
  | .raised (.clientError _) => .ok false
  | .raised e => .error e

/-- try/except shape of `S3Manager.list_objects` (lines 160-179): only
`except ClientError` (→ `[]`). -/
def list_objectsGuard (o : Outcome (List String)) : Except PyExc (List String) :=
  match o with
  | .ok keys => .ok keys
  | .raised (.clientError _) => .ok []
  | .raised e => .error e

/-- try/except shape of `S3Manager.download_file` (lines 183-193): only
`except ClientError` (→ `False`). -/
def download_fileGuard (o : Outcome Unit) : Except PyExc Bool :=
  match o with
  | .ok _ => .ok true
  | .raised (.clientError _) => .ok false
  | .raised e => .error e

/-- try/except shape of `S3Manager.delete_object` (lines 197-207): only
`except ClientError` (→ `False`). -/
def delete_objectGuard (o : Outcome Unit) : Except PyExc Bool :=
  match o with
  | .ok _ => .ok true
  | .raised (.clientError _) => .ok false
  | .raised e => .error e

/-- try/except shape of `S3Manager.delete_bucket` (lines 211-234): only
`except ClientError` (→ `False`); a non-`ClientError` exception — e.g. a
`WaiterError` from the `bucket_not_exists` waiter — propagates. -/
def delete_bucketGuard (o : Outcome Unit) : Except PyExc Bool :=
  match o with
  | .ok _ => .ok true
  | .raised (.clientError _) => .ok false
  | .raised e => .error e

/-- try/except shape of `S3Manager.bucket_exists` (lines 238-242): only
`except ClientError` (→ `False`). -/
def bucket_existsGuard (o : Outcome Unit) : Except PyExc Bool :=
  match o with
  | .ok _ => .ok true
  | .raised (.clientError _) => .ok false
  | .raised e => .error e

/-! ## Exit-status models of the scripts' `main` functions -/

/-- Exit-status model of `main` in s3_bucket_lifecycle.py (lines 277-412).
Decision points that reach `sys.exit(1)`: session resolution (line 291),
`S3Manager.__init__` (lines 63-68), and `create_bucket` returning `False`
(line 317; the raised `SystemExit` is not caught by `except Exception`, so
after the `finally` cleanup the process exits 1).  Every later facade result
(upload, download, object and bucket deletion) is consulted only for
printing, so when creation succeeded `main` returns normally and the process
exits 0 whatever those results are. -/
def lifecycleExit (sessionOk clientOk createOk uploadOk downloadOk
    deleteObjOk deleteBucketOk : Bool) : Nat :=
  if !sessionOk then 1
  else if !clientOk then 1
  else if !createOk then 1
  else 0

/-- Exit-status model of `main` in simple_s3_operations.py (lines 45-151): a
failed session resolution (lines 57-58) and a failed client construction
(lines 63-65) both `return` — not `sys.exit(1)` — and every `ClientError` or
other exception inside the workflow try is caught (lines 137-140), so the
script always exits 0. -/
def simpleExit (sessionOk clientOk stepsOk : Bool) : Nat :=
  if !sessionOk then 0
  else if !clientOk then 0
  else 0

/-- Exit-status model of `main` in test_connection.py (lines 111-167):
`--list-profiles` returns early (exit 0); a failed session resolution exits 1
(line 140); failed credential verification exits 1 (line 152); the two
listing helpers catch their own `ClientError`s, so the rest exits 0. -/
def connectionExit (listProfiles sessionOk credsOk : Bool) : Nat :=
  if listProfiles then 0
  else if !sessionOk then 1
  else if !credsOk then 1
  else 0

/-- Exit-status model of run_all_examples.py (lines 86-165 and the
`__main__` wrapper): a missing `examples` directory exits 1; otherwise the
loop runs to completion and `main` returns normally whatever the per-example
results were, so the process exits 0. -/
def runnerExit (examplesDirOk : Bool) (results : List Bool) : Nat :=
  if !examplesDirOk then 1 else 0

/-! ## The runner (run_all_examples.py) -/

/-- Command construction in `run_example` (lines 44-47): the interpreter, the
script path, and `--profile <name>` exactly when a shared profile was
given. -/
def buildCmd (pythonPath scriptPath : String) (profile : Option String) :
    List String :=
  [pythonPath, scriptPath] ++
    (match profile with
     | some p => ["--profile", p]
     | none => [])

/-- `run_example` (lines 22-64): when the script file does not exist on disk
it returns `False` without spawning a subprocess; otherwise it spawns the
subprocess and returns whether its exit code is 0 (an exception while
spawning is caught and yields `False`).  `spawn = some rc` models a completed
subprocess with exit code `rc`; `spawn = none` an exception raised by
`subprocess.run`.  The second component records whether a subprocess was
spawned. -/
def run_example (scriptOnDisk : Bool) (spawn : Option Nat) : Bool × Bool :=
  if !scriptOnDisk then (false, false)
  else
    match spawn with
    | some rc => (rc == 0, true)
    | none => (false, true)

/-- The fixed example list (lines 92-96). -/
def examplesList : List (String × String) :=
  [("test_connection.py", "AWS Connection Test"),
   ("simple_s3_operations.py", "Simple S3 Operations"),
   ("s3_bucket_lifecycle.py", "Complete S3 Lifecycle Demo")]

/-- Observable events of the runner's loop, in order: each `run_example`
invocation (script name, forwarded profile, success flag) and each 3-second
pause. -/
inductive RunnerEvent where
  | run (script : String) (profile : Option String) (ok : Bool)
  | pause
  deriving DecidableEq, Repr

/-- The runner's loop (lines 110-118): run each listed example in order,
forwarding the shared profile; after each example whose script name differs
from the last-listed script's name, pause for 3 seconds. -/
def runnerLoop (profile : Option String) (scriptOnDisk : String → Bool)
    (spawn : String → Option Nat) : List (String × String) → List RunnerEvent
  | [] => []
  | (s, _) :: rest =>
      RunnerEvent.run s profile (run_example (scriptOnDisk s) (spawn s)).1 ::
        ((if s ≠ (examplesList.map Prod.fst).getLastD "" then [RunnerEvent.pause]
          else []) ++ runnerLoop profile scriptOnDisk spawn rest)

/-- The collected per-example results (line 112). -/
def runnerResults (scriptOnDisk : String → Bool) (spawn : String → Option Nat) :
    List (String × Bool) :=
  examplesList.map (fun sd => (sd.1, (run_example (scriptOnDisk sd.1) (spawn sd.1)).1))

/-- The final tally (lines 128-135): the number of successful examples. -/
def runnerTally (scriptOnDisk : String → Bool) (spawn : String → Option Nat) : Nat :=
  (runnerResults scriptOnDisk spawn).countP (fun r => r.2)

end Boto3

namespace Boto3

/-! ## Supporting lemmas about the mocked backend -/

theorem findBucket_some_name {bs : List MockBucket} {n : String} {bk : MockBucket}
    (h : findBucket bs n = some bk) : bk.name = n := by
  induction bs with
  | nil => simp [findBucket] at h
  | cons b rest ih =>
      by_cases hb : b.name = n
      · simp [findBucket, hb] at h
        rw [← h]; exact hb
      · simp [findBucket, hb] at h
        exact ih h

theorem findBucket_setBucketObjs {bs : List MockBucket} {n : String}
    {bk : MockBucket} (h : findBucket bs n = some bk) (o : List MockObject) :
    findBucket (setBucketObjs bs n o) n = some { bk with objs := o } := by
  induction bs with
  | nil => simp [findBucket] at h
  | cons b rest ih =>
      by_cases hb : b.name = n
      · simp [findBucket, hb] at h
        simp [setBucketObjs, findBucket, hb, ← h]
      · simp [findBucket, setBucketObjs, hb] at h ⊢
        exact ih h

theorem setBucketObjs_setBucketObjs (bs : List MockBucket) (n : String)
    (o1 o2 : List MockObject) :
    setBucketObjs (setBucketObjs bs n o1) n o2 = setBucketObjs bs n o2 := by
  induction bs with
  | nil => simp [setBucketObjs]
  | cons b rest ih =>
      by_cases hb : b.name = n
      · simp [setBucketObjs, hb]
      · simp [setBucketObjs, hb, ih]

theorem setBucketObjs_self {bs : List MockBucket} {n : String} {bk : MockBucket}
    (h : findBucket bs n = some bk) : setBucketObjs bs n bk.objs = bs := by
  induction bs with
  | nil => simp [findBucket] at h
  | cons b rest ih =>
      by_cases hb : b.name = n
      · simp [findBucket, hb] at h
        subst h
        simp only [setBucketObjs]
        rw [if_pos hb]
      · simp [findBucket, hb] at h
        simp [setBucketObjs, hb, ih h]

theorem findBucket_removeBucket (bs : List MockBucket) (n : String) :
    findBucket (removeBucket bs n) n = none := by
  induction bs with
  | nil => simp [removeBucket, findBucket]
  | cons b rest ih =>
      by_cases hb : b.name = n
      · simp [removeBucket, hb, ih]
      · simp [removeBucket, findBucket, hb, ih]

theorem objLookup_objUpsert (objs : List MockObject) (key : String) (c : Bytes) :
    objLookup (objUpsert objs key c) key = some c := by
  induction objs with
  | nil => simp [objUpsert, objLookup]
  | cons o rest ih =>
      by_cases hk : o.key = key
      · simp [objUpsert, hk, objLookup]
      · simp [objUpsert, objLookup, hk, ih]

theorem mem_objErase {objs : List MockObject} {key : String} {o : MockObject} :
    o ∈ objErase objs key ↔ o ∈ objs ∧ o.key ≠ key := by
  induction objs with
  | nil => simp [objErase]
  | cons b rest ih =>
      by_cases hb : b.key = key
      · rw [show objErase (b :: rest) key = objErase rest key by simp [objErase, hb], ih]
        constructor
        · rintro ⟨h1, h2⟩
          exact ⟨List.mem_cons_of_mem _ h1, h2⟩
        · rintro ⟨h1, h2⟩
          rcases List.mem_cons.mp h1 with h | h
          · exact absurd (by rw [h]; exact hb) h2
          · exact ⟨h, h2⟩
      · simp [objErase, hb, ih]
        constructor
        · rintro (h | ⟨h1, h2⟩)
          · exact ⟨Or.inl h, h ▸ hb⟩
          · exact ⟨Or.inr h1, h2⟩
        · rintro ⟨h1 | h1, h2⟩
          · exact Or.inl h1
          · exact Or.inr ⟨h1, h2⟩

theorem mem_phaseObjs {failKeys : List String} :
    ∀ (ks : List String) (objs : List MockObject) (o : MockObject),
      o ∈ phaseObjs failKeys objs ks ↔
        o ∈ objs ∧ ∀ k ∈ ks, k ∉ failKeys → o.key ≠ k := by
  intro ks
  induction ks with
  | nil => simp [phaseObjs]
  | cons k rest ih =>
      intro objs o
      by_cases hk : k ∈ failKeys
      · simp only [phaseObjs, if_pos hk, ih]
        constructor
        · rintro ⟨h1, h2⟩
          refine ⟨h1, ?_⟩
          intro k' hk' hnot
          rcases List.mem_cons.mp hk' with h | h
          · subst h; exact absurd hk hnot
          · exact h2 k' h hnot
        · rintro ⟨h1, h2⟩
          exact ⟨h1, fun k' hk' hnot => h2 k' (List.mem_cons_of_mem _ hk') hnot⟩
      · simp only [phaseObjs, if_neg hk, ih, mem_objErase]
        constructor
        · rintro ⟨⟨h1, h3⟩, h2⟩
          refine ⟨h1, ?_⟩
          intro k' hk' hnot
          rcases List.mem_cons.mp hk' with h | h
          · subst h; exact h3
          · exact h2 k' h hnot
        · rintro ⟨h1, h2⟩
          exact ⟨⟨h1, h2 k (List.mem_cons_self _ _) hk⟩,
            fun k' hk' hnot => h2 k' (List.mem_cons_of_mem _ hk') hnot⟩

theorem phaseObjs_listed_nil_iff (failKeys : List String) (objs : List MockObject) :
    phaseObjs failKeys objs (objs.map MockObject.key) = [] ↔
      ∀ o ∈ objs, o.key ∉ failKeys := by
  rw [List.eq_nil_iff_forall_not_mem]
  constructor
  · intro h o ho hfail
    refine h o ?_
    rw [mem_phaseObjs]
    refine ⟨ho, ?_⟩
    intro k hk hnot heq
    exact hnot (heq ▸ hfail)
  · intro h o ho
    rw [mem_phaseObjs] at ho
    obtain ⟨h1, h2⟩ := ho
    exact h2 o.key (List.mem_map_of_mem _ h1) (h o h1) rfl

theorem deleteObjectsPhase_eq {failKeys : List String} {b : String} :
    ∀ (ks : List String) (st : S3State) (bk : MockBucket),
      findBucket st.mine b = some bk →
      deleteObjectsPhase failKeys st b ks =
        { st with mine := setBucketObjs st.mine b (phaseObjs failKeys bk.objs ks) } := by
  intro ks
  induction ks with
  | nil =>
      intro st bk h
      simp [deleteObjectsPhase, phaseObjs, setBucketObjs_self h]
  | cons k rest ih =>
      intro st bk h
      by_cases hk : k ∈ failKeys
      · have hdo : delete_object (k ∈ failKeys) st b k = (false, st) := by
          simp [delete_object, hk]
        simp only [deleteObjectsPhase, hdo]
        rw [ih st bk h]
        simp [phaseObjs, hk]
      · have hdo : delete_object (k ∈ failKeys) st b k =
            (true, { st with mine := setBucketObjs st.mine b (objErase bk.objs k) }) := by
          simp [delete_object, hk, deleteObjectAPI, h]
        simp only [deleteObjectsPhase, hdo]
        rw [ih _ _ (findBucket_setBucketObjs h (objErase bk.objs k))]
        simp [phaseObjs, hk, setBucketObjs_setBucketObjs]

/-! ## Claim theorems: session resolution -/

theorem truthy_some (s : String) : truthy (some s) = !(s.isEmpty) := rfl

theorem truthy_none : truthy none = false := rfl

theorem truthy_some_empty : truthy (some "") = false := by decide

theorem truthy_some_of_ne {s : String} (h : s ≠ "") : truthy (some s) = true := by
  have he : s.isEmpty = false := by
    rcases hb : s.isEmpty with _ | _
    · rfl
    · exact absurd ((String.isEmpty_iff s).mp hb) h
  simp [truthy_some, he]

/-- C10: when `AWS_PROFILE` is set to the empty string and no explicit profile
is supplied, `get_boto3_session` treats it as unset (`if env_profile:` is
falsy on `""`) and builds a default session rather than loading a profile
named by the empty string. -/
theorem c10_empty_env_profile_is_default (profiles : List String) :
    get_boto3_session profiles (some "") none = some SessionKind.default := by
  simp [get_boto3_session, truthy, mkSession, String.isEmpty_iff]

/-- C6: session resolution precedence — an explicitly supplied (truthy)
profile name wins over the environment; otherwise a truthy `AWS_PROFILE`
supplies the profile; otherwise default credentials are used.  A supplied
profile name absent from the local configuration makes resolution fail
(`ProfileNotFound` caught, `None` returned), and the lifecycle script then
aborts with exit code 1 without attempting any storage API call. -/
theorem c6_session_precedence_and_abort (profiles : List String)
    (env : Option String) (n : String) (hn : n ≠ "") :
    (∀ m : String, get_boto3_session profiles env (some n) =
        mkSession profiles (.profile n) ∧
      get_boto3_session profiles (some m) none =
        (if m ≠ "" then mkSession profiles (.profile m)
         else get_boto3_session profiles none none)) ∧
    (truthy env = false → get_boto3_session profiles env none =
        some SessionKind.default) ∧
    (env = some n → get_boto3_session profiles env none =
        mkSession profiles (.profile n)) ∧
    (n ∉ profiles →
      get_boto3_session profiles env (some n) = none ∧
      lifecycleStartup profiles env (some n) =
        { exitCode := some 1, apiAttempted := false }) := by
  constructor
  · intro m
    constructor
    · simp [get_boto3_session, truthy_some_of_ne hn, Option.getD]
    · by_cases hm : m = ""
      · simp [hm, get_boto3_session, truthy_some_empty, truthy_none]
      · simp [get_boto3_session, truthy_some_of_ne hm, truthy_none, Option.getD, hm]
  refine ⟨?_, ?_, ?_⟩
  · intro henv
    simp [get_boto3_session, truthy_none, henv, mkSession]
  · intro henv
    subst henv
    simp [get_boto3_session, truthy_none, truthy_some_of_ne hn, Option.getD]
  · intro hmem
    have hres : get_boto3_session profiles env (some n) = none := by
      simp [get_boto3_session, truthy_some_of_ne hn, Option.getD, mkSession, hmem]
    exact ⟨hres, by simp [lifecycleStartup, hres]⟩

/-- Witness for C6 at concrete inputs: profile "dev" exists, profile "ghost"
does not; an explicit profile beats the environment, the environment is used
when no explicit profile is given, and a nonexistent explicit profile aborts
startup before any API call. -/
theorem c6_session_precedence_and_abort_witness :
    get_boto3_session ["dev"] (some "dev") (some "ghost") = none ∧
    lifecycleStartup ["dev"] (some "dev") (some "ghost") =
      { exitCode := some 1, apiAttempted := false } ∧
    get_boto3_session ["dev"] (some "other") (some "dev") =
      some (SessionKind.profile "dev") ∧
    get_boto3_session ["dev"] (some "dev") none =
      some (SessionKind.profile "dev") := by
  have h := c6_session_precedence_and_abort ["dev"] (some "dev") "ghost" (by decide)
  have h2 := c6_session_precedence_and_abort ["dev"] (some "other") "dev" (by decide)
  have h3 := c6_session_precedence_and_abort ["dev"] (some "dev") "dev" (by decide)
  obtain ⟨habort1, habort2⟩ := h.2.2.2 (by decide)
  refine ⟨habort1, habort2, ?_, ?_⟩
  · rw [(h2.1 "").1]
    decide
  · rw [h3.2.2.1 rfl]
    decide

/-! ## Claim theorems: storage facade over the mocked backend -/

/-- C1: uploading a local file of N bytes to an existing bucket under an
unused key and then downloading that key to a fresh destination path yields
byte-for-byte identical content at the destination, and the reported sizes
(`os.path.getsize`) of the original and the downloaded file are equal, over
the mocked storage backend. -/
theorem c1_upload_download_roundtrip
    (st : S3State) (fs : LocalFS) (b p key d : String) (c : Bytes)
    (bk : MockBucket)
    (hbucket : findBucket st.mine b = some bk)
    (hfile : fsLookup fs p = some c)
    (hkey : objLookup bk.objs key = none)
    (hdest : fsLookup fs d = none) :
    (upload_file st fs b p (some key)).1 = true ∧
    (download_file (upload_file st fs b p (some key)).2 fs b key d).1 = true ∧
    fsLookup (download_file (upload_file st fs b p (some key)).2 fs b key d).2 d
      = some c ∧
    fileSize (download_file (upload_file st fs b p (some key)).2 fs b key d).2 d
      = fileSize (download_file (upload_file st fs b p (some key)).2 fs b key d).2 p := by
  have hup : upload_file st fs b p (some key) =
      (true, { st with mine := setBucketObjs st.mine b (objUpsert bk.objs key c) }) := by
    simp [upload_file, hfile, putObjectAPI, hbucket]
  have hdl : download_file (upload_file st fs b p (some key)).2 fs b key d =
      (true, fsWrite fs d c) := by
    rw [hup]
    simp [download_file, getObjectAPI, findBucket_setBucketObjs hbucket,
      objLookup_objUpsert]
  have hdp : d ≠ p := by
    intro hdp
    rw [hdp, hfile] at hdest
    exact Option.noConfusion hdest
  refine ⟨by rw [hup], by rw [hdl], ?_, ?_⟩
  · rw [hdl]
    simp [fsWrite, fsLookup]
  · rw [hdl]
    simp [fileSize, fsWrite, fsLookup, hdp, hfile]

/-- Witness for C1: a three-byte file, a fresh bucket, an unused key and a
fresh destination path. -/
theorem c1_upload_download_roundtrip_witness :
    (findBucket [(⟨"bkt", []⟩ : MockBucket)] "bkt" = some ⟨"bkt", []⟩) ∧
    (fsLookup [("f.txt", [1, 2, 3])] "f.txt" = some [1, 2, 3]) ∧
    ((upload_file ⟨[⟨"bkt", []⟩], []⟩ [("f.txt", [1, 2, 3])] "bkt" "f.txt"
        (some "k")).1 = true ∧
      (download_file (upload_file ⟨[⟨"bkt", []⟩], []⟩ [("f.txt", [1, 2, 3])]
        "bkt" "f.txt" (some "k")).2 [("f.txt", [1, 2, 3])] "bkt" "k" "dl.txt").1
        = true ∧
      fsLookup (download_file (upload_file ⟨[⟨"bkt", []⟩], []⟩
        [("f.txt", [1, 2, 3])] "bkt" "f.txt" (some "k")).2
        [("f.txt", [1, 2, 3])] "bkt" "k" "dl.txt").2 "dl.txt" = some [1, 2, 3] ∧
      fileSize (download_file (upload_file ⟨[⟨"bkt", []⟩], []⟩
        [("f.txt", [1, 2, 3])] "bkt" "f.txt" (some "k")).2
        [("f.txt", [1, 2, 3])] "bkt" "k" "dl.txt").2 "dl.txt"
        = fileSize (download_file (upload_file ⟨[⟨"bkt", []⟩], []⟩
        [("f.txt", [1, 2, 3])] "bkt" "f.txt" (some "k")).2
        [("f.txt", [1, 2, 3])] "bkt" "k" "dl.txt").2 "f.txt") :=
  ⟨by decide, by decide,
    c1_upload_download_roundtrip ⟨[⟨"bkt", []⟩], []⟩ [("f.txt", [1, 2, 3])]
      "bkt" "f.txt" "k" "dl.txt" [1, 2, 3] ⟨"bkt", []⟩
      (by decide) (by decide) (by decide) (by decide)⟩

/-- C2: `create_bucket` returns success when the service reports
`BucketAlreadyOwnedByYou` (the caller already owns the name), failure when it
reports `BucketAlreadyExists` (another account holds the name), and on fresh
creation returns success with the `bucket_exists` waiter's condition holding
on the resulting state. -/
theorem c2_create_bucket_already_owned
    (st : S3State) (name : String) :
    ((findBucket st.mine name).isSome = true →
      createBucketAPI st name = .error .bucketAlreadyOwnedByYou ∧
      create_bucket st name = (true, st)) ∧
    (findBucket st.mine name = none → name ∈ st.others →
      createBucketAPI st name = .error .bucketAlreadyExists ∧
      create_bucket st name = (false, st)) ∧
    (findBucket st.mine name = none → name ∉ st.others →
      (create_bucket st name).1 = true ∧
      bucket_exists (create_bucket st name).2 name = true) := by
  refine ⟨?_, ?_, ?_⟩
  · intro hsome
    rw [Option.isSome_iff_exists] at hsome
    obtain ⟨bk, hbk⟩ := hsome
    have hapi : createBucketAPI st name = .error .bucketAlreadyOwnedByYou := by
      simp [createBucketAPI, hbk]
    exact ⟨hapi, by simp [create_bucket, hapi]⟩
  · intro hnone hmem
    have hapi : createBucketAPI st name = .error .bucketAlreadyExists := by
      simp [createBucketAPI, hnone, hmem]
    exact ⟨hapi, by simp [create_bucket, hapi]⟩
  · intro hnone hmem
    have hapi : createBucketAPI st name =
        .ok { st with mine := ⟨name, []⟩ :: st.mine } := by
      simp [createBucketAPI, hnone, hmem]
    constructor
    · simp [create_bucket, hapi]
    · simp [create_bucket, hapi, bucket_exists, headBucketAPI, findBucket]

/-- Witness for C2: one state exercising all three branches — the caller owns
"owned", another account owns "taken", and "fresh" is unused. -/
theorem c2_create_bucket_already_owned_witness :
    (create_bucket ⟨[⟨"owned", []⟩], ["taken"]⟩ "owned" =
        (true, ⟨[⟨"owned", []⟩], ["taken"]⟩) ∧
      create_bucket ⟨[⟨"owned", []⟩], ["taken"]⟩ "taken" =
        (false, ⟨[⟨"owned", []⟩], ["taken"]⟩) ∧
      (create_bucket ⟨[⟨"owned", []⟩], ["taken"]⟩ "fresh").1 = true ∧
      bucket_exists (create_bucket ⟨[⟨"owned", []⟩], ["taken"]⟩ "fresh").2
        "fresh" = true) := by
  refine ⟨?_, ?_, ?_, ?_⟩
  · exact ((c2_create_bucket_already_owned ⟨[⟨"owned", []⟩], ["taken"]⟩
      "owned").1 (by decide)).2
  · exact ((c2_create_bucket_already_owned ⟨[⟨"owned", []⟩], ["taken"]⟩
      "taken").2.1 (by decide) (by decide)).2
  · exact ((c2_create_bucket_already_owned ⟨[⟨"owned", []⟩], ["taken"]⟩
      "fresh").2.2 (by decide) (by decide)).1
  · exact ((c2_create_bucket_already_owned ⟨[⟨"owned", []⟩], ["taken"]⟩
      "fresh").2.2 (by decide) (by decide)).2

/-- C3: on a non-empty bucket, `delete_bucket` lists the contained keys and
deletes them one by one, then deletes the bucket itself (waiting on the
`bucket_not_exists` condition, which holds on the resulting state), after
which `bucket_exists` returns `False`; the per-object deletion results are
discarded, so an individual per-object failure reaches the caller only
through the final bucket-deletion call's single boolean (the returned value
is `True` exactly when no listed key's deletion failed). -/
theorem c3_delete_bucket_empties_then_deletes
    (st : S3State) (b : String) (bk : MockBucket)
    (hbucket : findBucket st.mine b = some bk)
    (hne : bk.objs ≠ []) :
    list_objects st b = bk.objs.map MockObject.key ∧
    (delete_bucket [] st b).1 = true ∧
    bucket_exists (delete_bucket [] st b).2 b = false ∧
    (∀ failKeys : List String,
      ((delete_bucket failKeys st b).1 = true ↔ ∀ o ∈ bk.objs, o.key ∉ failKeys)) := by
  have hlo : list_objects st b = bk.objs.map MockObject.key := by
    simp [list_objects, listObjectsAPI, hbucket]
  have hphase : ∀ failKeys : List String,
      deleteObjectsPhase failKeys st b (list_objects st b) =
        { st with mine := setBucketObjs st.mine b (phaseObjs failKeys bk.objs (bk.objs.map MockObject.key)) } := by
    intro failKeys
    rw [hlo]
    exact deleteObjectsPhase_eq _ st bk hbucket
  have hfind : ∀ failKeys : List String,
      findBucket (deleteObjectsPhase failKeys st b (list_objects st b)).mine b =
        some { bk with
          objs := phaseObjs failKeys bk.objs (bk.objs.map MockObject.key) } := by
    intro failKeys
    rw [hphase]
    exact findBucket_setBucketObjs hbucket _
  have hmain : ∀ failKeys : List String,
      ((delete_bucket failKeys st b).1 = true ↔ ∀ o ∈ bk.objs, o.key ∉ failKeys) := by
    intro failKeys
    rw [← phaseObjs_listed_nil_iff failKeys bk.objs]
    by_cases hnil : phaseObjs failKeys bk.objs (bk.objs.map MockObject.key) = []
    · simp [delete_bucket, deleteBucketAPI, hfind failKeys, hnil]
    · simp [delete_bucket, deleteBucketAPI, hfind failKeys, hnil]
  have hnilempty : phaseObjs [] bk.objs (bk.objs.map MockObject.key) = [] := by
    rw [phaseObjs_listed_nil_iff]
    simp
  refine ⟨hlo, ?_, ?_, hmain⟩
  · rw [hmain []]
    simp
  · simp [delete_bucket, deleteBucketAPI, hfind [], hnilempty, hphase [],
      bucket_exists, headBucketAPI, findBucket_removeBucket,
      findBucket_setBucketObjs hbucket]

/-- Witness for C3: a bucket holding two objects. -/
theorem c3_delete_bucket_empties_then_deletes_witness :
    list_objects ⟨[⟨"bkt", [⟨"k1", [1]⟩, ⟨"k2", [2, 3]⟩]⟩], []⟩ "bkt"
      = ["k1", "k2"] ∧
    (delete_bucket [] ⟨[⟨"bkt", [⟨"k1", [1]⟩, ⟨"k2", [2, 3]⟩]⟩], []⟩ "bkt").1
      = true ∧
    bucket_exists
      (delete_bucket [] ⟨[⟨"bkt", [⟨"k1", [1]⟩, ⟨"k2", [2, 3]⟩]⟩], []⟩ "bkt").2
      "bkt" = false ∧
    (delete_bucket ["k2"]
      ⟨[⟨"bkt", [⟨"k1", [1]⟩, ⟨"k2", [2, 3]⟩]⟩], []⟩ "bkt").1 = false := by
  have h := c3_delete_bucket_empties_then_deletes
    ⟨[⟨"bkt", [⟨"k1", [1]⟩, ⟨"k2", [2, 3]⟩]⟩], []⟩ "bkt"
    ⟨"bkt", [⟨"k1", [1]⟩, ⟨"k2", [2, 3]⟩]⟩ (by decide) (by decide)
  refine ⟨by rw [h.1]; decide, h.2.1, h.2.2.1, ?_⟩
  have hiff := h.2.2.2 ["k2"]
  by_contra hne
  rw [Bool.not_eq_false] at hne
  have := hiff.mp hne ⟨"k2", [2, 3]⟩ (by decide)
  simp at this

/-! ## Claim theorems: exception propagation -/

/-- C4 counterexample: `download_file`'s try/except catches only
`ClientError`; an exception of any other class raised by the SDK call inside
its try block — here a `NoCredentialsError`, which boto3 raises at the first
API call when credentials are missing — propagates to the caller.  So it is
not the case that every facade operation catches every error arising during
its own execution. -/
theorem c4_counterexample_uncaught_exception_propagates :
    download_fileGuard (.raised (.otherExc "NoCredentialsError")) =
      .error (.otherExc "NoCredentialsError") := rfl

/-- C4 amended: every facade operation catches `ClientError` and returns its
boolean or empty-list sentinel; `upload_file` additionally catches
`FileNotFoundError`, and `create_bucket` additionally catches every other
exception (its final `except Exception`), so `create_bucket` never lets an
exception propagate; but from each of the six other operations an exception
that is not of a caught class (e.g. `NoCredentialsError`) propagates to the
caller. -/
theorem c4_error_handling_amended :
    (∀ e : PyExc, create_bucketGuard (.raised e) = .ok true ∨
      create_bucketGuard (.raised e) = .ok false) ∧
    (∀ c : ErrCode,
      list_bucketsGuard (.raised (.clientError c)) = .ok [] ∧
      upload_fileGuard (.raised (.clientError c)) = .ok false ∧
      list_objectsGuard (.raised (.clientError c)) = .ok [] ∧
      download_fileGuard (.raised (.clientError c)) = .ok false ∧
      delete_objectGuard (.raised (.clientError c)) = .ok false ∧
      delete_bucketGuard (.raised (.clientError c)) = .ok false) ∧
    upload_fileGuard (.raised .fileNotFoundError) = .ok false ∧
    (∀ n : String,
      list_bucketsGuard (.raised (.otherExc n)) = .error (.otherExc n) ∧
      upload_fileGuard (.raised (.otherExc n)) = .error (.otherExc n) ∧
      list_objectsGuard (.raised (.otherExc n)) = .error (.otherExc n) ∧
      download_fileGuard (.raised (.otherExc n)) = .error (.otherExc n) ∧
      delete_objectGuard (.raised (.otherExc n)) = .error (.otherExc n) ∧
      delete_bucketGuard (.raised (.otherExc n)) = .error (.otherExc n)) := by
  refine ⟨?_, ?_, rfl, ?_⟩
  · intro e
    cases e with
    | clientError c => cases c <;> simp [create_bucketGuard]
    | fileNotFoundError => right; rfl
    | otherExc n => right; rfl
  · intro c
    cases c <;> exact ⟨rfl, rfl, rfl, rfl, rfl, rfl⟩
  · intro n
    exact ⟨rfl, rfl, rfl, rfl, rfl, rfl⟩

/-- C5: `bucket_exists` returns a boolean — in the mock, exactly whether the
account can reach the bucket — and every service error (`ClientError`,
whatever its code) raised by the `head_bucket` probe is treated as the bucket
not existing: the method returns `False` rather than raising. -/
theorem c5_bucket_exists_error_means_false :
    (∀ (st : S3State) (name : String),
      bucket_exists st name = (findBucket st.mine name).isSome) ∧
    bucket_existsGuard (.ok ()) = .ok true ∧
    (∀ c : ErrCode, bucket_existsGuard (.raised (.clientError c)) = .ok false) := by
  refine ⟨?_, rfl, ?_⟩
  · intro st name
    cases h : findBucket st.mine name <;> simp [bucket_exists, headBucketAPI, h]
  · intro c
    rfl

/-! ## Claim theorems: exit codes -/

/-- C7 counterexample: in simple_s3_operations.py a credential failure —
session resolution returning `None`, e.g. for a nonexistent profile — makes
`main` `return` (lines 57-58) rather than `sys.exit(1)`, so the process
exits 0, not 1 as the claim requires of every script. -/
theorem c7_counterexample_simple_script_cred_failure_exits_zero :
    simpleExit false true true = 0 ∧ (0 : Nat) ≠ 1 := ⟨rfl, by decide⟩

/-- C7 amended: the connection and lifecycle scripts exit 0 on success and 1
on a credential or fatal setup failure — and the lifecycle script also exits
1, via an uncaught `SystemExit`, when bucket creation fails — while the
simple-operations script reports such failures but always exits 0;
post-setup facade step results never affect any script's exit code, and the
runner's exit code ignores individual example failures. -/
theorem c7_exit_codes_amended :
    (connectionExit false true true = 0 ∧
      (∀ credsOk : Bool, connectionExit false false credsOk = 1) ∧
      connectionExit false true false = 1) ∧
    (∀ uploadOk downloadOk deleteObjOk deleteBucketOk : Bool,
      lifecycleExit true true true uploadOk downloadOk deleteObjOk
        deleteBucketOk = 0 ∧
      (∀ clientOk createOk : Bool,
        lifecycleExit false clientOk createOk uploadOk downloadOk deleteObjOk
          deleteBucketOk = 1) ∧
      (∀ createOk : Bool,
        lifecycleExit true false createOk uploadOk downloadOk deleteObjOk
          deleteBucketOk = 1) ∧
      lifecycleExit true true false uploadOk downloadOk deleteObjOk
        deleteBucketOk = 1) ∧
    (∀ sessionOk clientOk stepsOk : Bool,
      simpleExit sessionOk clientOk stepsOk = 0) ∧
    (∀ results : List Bool, runnerExit true results = 0 ∧
      runnerExit false results = 1) := by
  refine ⟨⟨rfl, fun _ => rfl, rfl⟩, ?_, ?_, ?_⟩
  · intro u d x y
    exact ⟨rfl, fun _ _ => rfl, fun _ => rfl, rfl⟩
  · intro s c st
    cases s <;> cases c <;> rfl
  · intro rs
    exact ⟨rfl, rfl⟩

/-! ## Claim theorems: the runner -/

/-- C8: the runner invokes the three orchestrator scripts strictly
sequentially, forwarding the shared profile argument to each; a fixed pause
occurs exactly between consecutive runs and not after the last; all three
`run` events occur whatever the individual outcomes (a failed orchestrator
never prevents the remaining ones from running); and the final tally counts
exactly the successful runs. -/
theorem c8_runner_sequences_all_examples
    (profile : Option String) (scriptOnDisk : String → Bool)
    (spawn : String → Option Nat) :
    runnerLoop profile scriptOnDisk spawn examplesList =
      [RunnerEvent.run "test_connection.py" profile
         (run_example (scriptOnDisk "test_connection.py")
           (spawn "test_connection.py")).1,
       RunnerEvent.pause,
       RunnerEvent.run "simple_s3_operations.py" profile
         (run_example (scriptOnDisk "simple_s3_operations.py")
           (spawn "simple_s3_operations.py")).1,
       RunnerEvent.pause,
       RunnerEvent.run "s3_bucket_lifecycle.py" profile
         (run_example (scriptOnDisk "s3_bucket_lifecycle.py")
           (spawn "s3_bucket_lifecycle.py")).1] ∧
    (∀ py s p, buildCmd py s (some p) = [py, s, "--profile", p] ∧
      buildCmd py s none = [py, s]) ∧
    runnerTally scriptOnDisk spawn =
      (if (run_example (scriptOnDisk "test_connection.py")
          (spawn "test_connection.py")).1 then 1 else 0) +
      (if (run_example (scriptOnDisk "simple_s3_operations.py")
          (spawn "simple_s3_operations.py")).1 then 1 else 0) +
      (if (run_example (scriptOnDisk "s3_bucket_lifecycle.py")
          (spawn "s3_bucket_lifecycle.py")).1 then 1 else 0) := by
  refine ⟨rfl, fun py s p => ⟨rfl, rfl⟩, ?_⟩
  cases h1 : (run_example (scriptOnDisk "test_connection.py")
      (spawn "test_connection.py")).1 <;>
    cases h2 : (run_example (scriptOnDisk "simple_s3_operations.py")
      (spawn "simple_s3_operations.py")).1 <;>
    cases h3 : (run_example (scriptOnDisk "s3_bucket_lifecycle.py")
      (spawn "s3_bucket_lifecycle.py")).1 <;>
    simp [runnerTally, runnerResults, examplesList, List.countP, List.countP.go,
      h1, h2, h3]

/-- C9: when the script file named for a run does not exist on disk,
`run_example` returns failure without spawning any subprocess, and the
missing script is counted as a failed example: the tally counts only the
other scripts' successes. -/
theorem c9_missing_script_counted_failed
    (scriptOnDisk : String → Bool) (spawn : String → Option Nat)
    (hmissing : scriptOnDisk "test_connection.py" = false) :
    (∀ sp : Option Nat, run_example false sp = (false, false)) ∧
    ("test_connection.py", false) ∈ runnerResults scriptOnDisk spawn ∧
    runnerTally scriptOnDisk spawn =
      (if (run_example (scriptOnDisk "simple_s3_operations.py")
          (spawn "simple_s3_operations.py")).1 then 1 else 0) +
      (if (run_example (scriptOnDisk "s3_bucket_lifecycle.py")
          (spawn "s3_bucket_lifecycle.py")).1 then 1 else 0) := by
  refine ⟨fun sp => rfl, ?_, ?_⟩
  · simp [runnerResults, examplesList, run_example, hmissing]
  · have h1 : run_example (scriptOnDisk "test_connection.py")
        (spawn "test_connection.py") = (false, false) := by
      rw [hmissing]
      rfl
    cases h2 : (run_example (scriptOnDisk "simple_s3_operations.py")
        (spawn "simple_s3_operations.py")).1 <;>
      cases h3 : (run_example (scriptOnDisk "s3_bucket_lifecycle.py")
        (spawn "s3_bucket_lifecycle.py")).1 <;>
      simp [runnerTally, runnerResults, examplesList, List.countP, List.countP.go,
        h1, h2, h3]

/-- Witness for C9: only `test_connection.py` is missing, the two other
scripts spawn and exit 0, so the tally is 2 of 3. -/
theorem c9_missing_script_counted_failed_witness :
    run_example false (some 7) = (false, false) ∧
    ("test_connection.py", false) ∈
      runnerResults (fun s => !(s == "test_connection.py")) (fun _ => some 0) ∧
    runnerTally (fun s => !(s == "test_connection.py")) (fun _ => some 0) = 2 := by
  have h := c9_missing_script_counted_failed
    (fun s => !(s == "test_connection.py")) (fun _ => some 0) (by decide)
  refine ⟨h.1 (some 7), h.2.1, ?_⟩
  rw [h.2.2]
  decide

end Boto3
